import Mathlib

/-!
Verification of the benzene-vanilla-cmake decision-engine glue
(`src/wolve/WolveEngine.cpp` and `src/hex/HexEnvironment.cpp`) against its
natural-language specification.

Each C++ function used by a claim is embedded as a Lean definition below,
translated from the source.  External collaborators (the GTP argument
parsers, the search algorithms, `SwapCheck`, `SgSearchHashTable` internals,
`VCBuilder`) are either taken as explicit function parameters or, where a
claim depends on their behaviour, modelled from the specification with a
doc comment saying so.
-/

namespace Benzene

/-! ## ParseDashSeparatedString (WolveEngine.cpp, anonymous namespace)

The C++ function replaces every dash in the input by a space and then reads
`TYPE` values (here `std::size_t`) from an `istringstream` in a loop
`while (is) { TYPE j; if (is >> j) out.push_back(j); }`.
`operator>>` skips whitespace, accepts an optional leading sign and a
decimal digit run; on a malformed or overflowing field it sets the fail
bit, which ends the `while` loop.  We model the character classes of the
default C locale and `std::size_t` as a 64-bit unsigned integer. -/

/-- Characters the default C locale treats as whitespace (what
`operator>>` skips between fields). -/
def cppIsSpace (c : Char) : Bool :=
  c = ' ' || c = '\t' || c = '\n' || c = '\x0b' || c = '\x0c' || c = '\r'

/-- Numeric value of a decimal digit character. -/
def digitVal (c : Char) : Nat := c.toNat - 48

/-- Largest value a `std::size_t` field can hold (64-bit build). -/
def sizeTLimit : Nat := 2 ^ 64

mutual

/-- Continue a decimal field whose digits read so far amount to `acc`.
The field ends at the first non-digit: a space separator resumes the
whitespace-skipping scan, while any other character is where the next
`is >> j` extraction starts immediately — it succeeds exactly when that
character is a plus sign directly followed by a digit (the stream accepts
a leading sign), and fails otherwise, ending the loop.  A field whose
value does not fit in `std::size_t` sets the fail bit, which aborts the
surrounding `while (is)` loop, so its value is not pushed and nothing
further is parsed. -/
def extractRun : List Char → Nat → List Nat
  | [], acc => if acc < sizeTLimit then [acc] else []
  | c :: rest, acc =>
    if c.isDigit then extractRun rest (10 * acc + digitVal c)
    else if cppIsSpace c then
      if acc < sizeTLimit then acc :: scanTokens rest else []
    else
      if acc < sizeTLimit then
        acc :: (if c = '+' then plusLookahead rest else [])
      else []

/-- After a plus sign, `num_get` requires a digit immediately; anything
else fails the extraction and ends the loop. -/
def plusLookahead : List Char → List Nat
  | [] => []
  | d :: rest2 => if d.isDigit then extractRun rest2 (digitVal d) else []

/-- Attempt the next `is >> j` extraction: skip whitespace, then require a
digit (or a plus sign immediately followed by a digit, which `num_get`
also accepts); any other character makes the extraction fail, ending the
`while (is)` loop. -/
def scanTokens : List Char → List Nat
  | [] => []
  | c :: rest =>
    if cppIsSpace c then scanTokens rest
    else if c.isDigit then extractRun rest (digitVal c)
    else if c = '+' then plusLookahead rest
    else []

end

/-- Replace every dash by a space, as the first loop of
`ParseDashSeparatedString` does. -/
def dashToSpace (s : List Char) : List Char :=
  s.map (fun c => if c = '-' then ' ' else c)

/-- `ParseDashSeparatedString` from `WolveEngine.cpp`: dashes become
spaces, then whitespace-separated `std::size_t` fields are read until the
first failed extraction. -/
def ParseDashSeparatedString (s : List Char) : List Nat :=
  scanTokens (dashToSpace s)

/-- Value of a digit run, most significant digit first (what the stream
extraction accumulates). -/
def valOfDigits (ds : List Char) : Nat :=
  ds.foldl (fun a c => 10 * a + digitVal c) 0

/-- Dash-separated join of token strings, the shape of a well-formed
`ply_width` argument. -/
def joinDash : List (List Char) → List Char
  | [] => []
  | [t] => t
  | t :: ts => t ++ '-' :: joinDash ts

/-- A token every character of which is a decimal digit, nonempty, whose
value fits in `std::size_t`. -/
abbrev GoodToken (t : List Char) : Prop :=
  t ≠ [] ∧ (∀ c ∈ t, c.isDigit) ∧ valOfDigits t < sizeTLimit

/-- A character that makes the stream extraction fail where a token is
expected: not a digit, not whitespace, not a sign, and not the dash that
the pre-pass would have turned into a space. -/
abbrev JunkChar (c : Char) : Prop :=
  ¬ c.isDigit ∧ ¬ cppIsSpace c ∧ c ≠ '+' ∧ c ≠ '-'

/-! ## Wolve engine state (WolveEngine.cpp / WolvePlayer, WolveSearch)

Only the configuration surface that `WolveEngine.cpp` reads and writes is
embedded; the search algorithms themselves are external collaborators. -/

/-- A Hex move; `SWAP_PIECES` is the distinguished sentinel of the enum. -/
def HexPoint : Type := Nat

instance : DecidableEq HexPoint := instDecidableEqNat

/-- The swap sentinel returned when the engine invokes the pie rule. -/
def SWAP_PIECES : HexPoint := (2 : Nat)

/-- `SgSearchHashTable`: capacity (`MaxHash()`) plus its stored entries.
The entry payload (value, best move, depth, bound flags) is abstracted to
a number; a freshly constructed table has no entries. -/
structure SgSearchHashTable where
  maxHash : Nat
  entries : List (Nat × Nat)
deriving DecidableEq

/-- The `WolveSearch` parameters that `WolveEngine::CmdParam` touches. -/
structure WolveSearchState where
  backupIceInfo : Bool
  guiFx : Bool
  plyWidth : List Nat
deriving DecidableEq

/-- The `WolvePlayer` parameters that `WolveEngine::CmdParam` touches,
plus the hash table the player owns.  `maxTime` is the parsed value of
the `max_time` float; it is modelled as an exact rational. -/
structure WolvePlayerState where
  search : WolveSearchState
  searchSingleton : Bool
  useTimeManagement : Bool
  maxDepth : Nat
  minDepth : Nat
  maxTime : Rat
  hashTable : Option SgSearchHashTable
deriving DecidableEq

/-- The `WolveEngine` members that its commands touch. -/
structure WolveEngineState where
  player : WolvePlayerState
  useParallelSolver : Bool
deriving DecidableEq

/-- A GTP command argument as the command interprets it.  Every argument
arrives as a raw token; `HtpCommand::Arg<T>` (external to src/) parses the
token at the type the branch requests, so the constructor records which
parse succeeded, and a branch finding the wrong constructor corresponds to
a failed parse (an `HtpFailure` from the argument parser). -/
inductive HtpValue
  | vb : Bool → HtpValue
  | vn : Nat → HtpValue
  | vq : Rat → HtpValue
  | vs : String → HtpValue
deriving DecidableEq

/-- A parameter value as the no-argument query displays it. -/
inductive ParamShow
  | pb : Bool → ParamShow
  | pn : Nat → ParamShow
  | pq : Rat → ParamShow
  | pws : List Nat → ParamShow
deriving DecidableEq

/-- The `tt_bits` value the query prints:
`m_player.HashTable() ? log2(m_player.HashTable()->MaxHash()) : 0`. -/
def shownTTBits : Option SgSearchHashTable → Nat
  | none => 0
  | some t => Nat.log2 t.maxHash

/-- The parameter list printed by `param_wolve` with no arguments, in the
order of the code. -/
def wolveParamList (st : WolveEngineState) : List (String × ParamShow) :=
  [("backup_ice_info", ParamShow.pb st.player.search.backupIceInfo),
   ("use_guifx", ParamShow.pb st.player.search.guiFx),
   ("search_singleton", ParamShow.pb st.player.searchSingleton),
   ("use_parallel_solver", ParamShow.pb st.useParallelSolver),
   ("use_time_management", ParamShow.pb st.player.useTimeManagement),
   ("ply_width", ParamShow.pws st.player.search.plyWidth),
   ("max_depth", ParamShow.pn st.player.maxDepth),
   ("max_time", ParamShow.pq st.player.maxTime),
   ("min_depth", ParamShow.pn st.player.minDepth),
   ("tt_bits", ParamShow.pn (shownTTBits st.player.hashTable))]

/-- `WolveEngine::CmdParam`.  Zero arguments: print all parameters.  Two
arguments: dispatch on the name exactly as the chained comparisons in the
code do; `ArgMin<std::size_t>(1, 1)` rejects values below 1, and
`ArgMin<int>(1, 0)` for `tt_bits` admits every natural number.  `tt_bits`
zero drops the table; a positive value installs a fresh table of
`1 << bits` entries.  Any other argument count is a usage error.  Errors
are thrown before any member is assigned, so the state comes back
unchanged alongside the error. -/
def cmdParam (st : WolveEngineState) (args : List HtpValue) :
    WolveEngineState × Except String (List (String × ParamShow)) :=
  match args with
  | [] => (st, Except.ok (wolveParamList st))
  | [HtpValue.vs name, v] =>
    if name = "backup_ice_info" then
      match v with
      | HtpValue.vb b =>
        ({ st with player := { st.player with
             search := { st.player.search with backupIceInfo := b } } },
         Except.ok [])
      | _ => (st, Except.error "argument is not a bool")
    else if name = "max_time" then
      match v with
      | HtpValue.vq q =>
        ({ st with player := { st.player with maxTime := q } }, Except.ok [])
      | _ => (st, Except.error "argument is not a float")
    else if name = "ply_width" then
      match v with
      | HtpValue.vs s =>
        ({ st with player := { st.player with
             search := { st.player.search with
               plyWidth := ParseDashSeparatedString s.toList } } },
         Except.ok [])
      | _ => (st, Except.error "argument is not a string")
    else if name = "max_depth" then
      match v with
      | HtpValue.vn n =>
        if 1 ≤ n then
          ({ st with player := { st.player with maxDepth := n } }, Except.ok [])
        else (st, Except.error "argument must be at least 1")
      | _ => (st, Except.error "argument is not a number")
    else if name = "min_depth" then
      match v with
      | HtpValue.vn n =>
        if 1 ≤ n then
          ({ st with player := { st.player with minDepth := n } }, Except.ok [])
        else (st, Except.error "argument must be at least 1")
      | _ => (st, Except.error "argument is not a number")
    else if name = "use_guifx" then
      match v with
      | HtpValue.vb b =>
        ({ st with player := { st.player with
             search := { st.player.search with guiFx := b } } }, Except.ok [])
      | _ => (st, Except.error "argument is not a bool")
    else if name = "search_singleton" then
      match v with
      | HtpValue.vb b =>
        ({ st with player := { st.player with searchSingleton := b } },
         Except.ok [])
      | _ => (st, Except.error "argument is not a bool")
    else if name = "tt_bits" then
      match v with
      | HtpValue.vn bits =>
        if bits = 0 then
          ({ st with player := { st.player with hashTable := none } },
           Except.ok [])
        else
          ({ st with player := { st.player with
               hashTable := some { maxHash := 2 ^ bits, entries := [] } } },
           Except.ok [])
      | _ => (st, Except.error "argument is not a number")
    else if name = "use_parallel_solver" then
      match v with
      | HtpValue.vb b => ({ st with useParallelSolver := b }, Except.ok [])
      | _ => (st, Except.error "argument is not a bool")
    else if name = "use_time_management" then
      match v with
      | HtpValue.vb b =>
        ({ st with player := { st.player with useTimeManagement := b } },
         Except.ok [])
      | _ => (st, Except.error "argument is not a bool")
    else (st, Except.error ("Unknown parameter: " ++ name))
  | [_, _] => (st, Except.error "argument is not a string")
  | _ => (st, Except.error "Expected 0 or 2 arguments")

/-! ## Diagnostic commands against the transposition table -/

/-- Outcome of one diagnostic command: a produced answer, a thrown
`HtpFailure`, or a dereference of a null pointer (undefined behaviour in
the C++; no `HtpFailure` is produced on that path). -/
inductive CmdOutcome (α : Type)
  | ok : α → CmdOutcome α
  | fail : String → CmdOutcome α
  | nullDeref : CmdOutcome α
deriving DecidableEq

/-- `WolveEngine::CmdGetPV`: builds the current state and immediately
calls `WolveSearchUtil::ExtractPVFromHashTable(state, *hashTable, seq)`.
There is no null check before `*hashTable`, so with no table allocated
the command dereferences a null pointer.  `extractPV` stands for the
external extraction routine applied at the current state. -/
def cmdGetPV (extractPV : SgSearchHashTable → List HexPoint)
    (hashTable : Option SgSearchHashTable) : CmdOutcome (List HexPoint) :=
  match hashTable with
  | none => CmdOutcome.nullDeref
  | some t => CmdOutcome.ok (extractPV t)

/-- `WolveEngine::CmdScores`: `if (!hashTable) throw HtpFailure("No
hashtable!")`, otherwise print `WolveSearchUtil::PrintScores` (external,
applied at the current state). -/
def cmdScores (printScores : SgSearchHashTable → String)
    (hashTable : Option SgSearchHashTable) : CmdOutcome String :=
  match hashTable with
  | none => CmdOutcome.fail "No hashtable!"
  | some t => CmdOutcome.ok (printScores t)

/-- `WolveEngine::CmdData`: `if (!hashTable) throw HtpFailure("No
hashtable!")`, otherwise look the current state up (external `Lookup`)
and print the entry when one is found, nothing otherwise. -/
def cmdData (lookupData : SgSearchHashTable → Option String)
    (hashTable : Option SgSearchHashTable) : CmdOutcome String :=
  match hashTable with
  | none => CmdOutcome.fail "No hashtable!"
  | some t =>
    match lookupData t with
    | some s => CmdOutcome.ok s
    | none => CmdOutcome.ok ""

/-! ## HexEnvironment (HexEnvironment.cpp) -/

/-- The `ICEngine` toggles that `HexEnvironmentCommands::ParamICE`
reads and writes. -/
structure ICEngineParams where
  findAllPatternSuperiors : Bool
  findAllPatternKillers : Bool
  findPresimplicialPairs : Bool
  findThreeSidedDeadRegions : Bool
  iterativeDeadRegions : Bool
  useCapture : Bool
  findReversible : Bool
  useSReversibleAsReversible : Bool
deriving DecidableEq

/-- The `VCBuilderParam` flags that `HexEnvironmentCommands::ParamVC`
reads and writes. -/
structure VCBuilderParam where
  and_over_edge : Bool
  use_patterns : Bool
  use_non_edge_patterns : Bool
  incremental_builds : Bool
  limit_fulls : Bool
  limit_or : Bool
deriving DecidableEq

/-- The position a `HexBoard` works on: its dimensions and the stones
played on it. -/
structure StoneBoard where
  width : Nat
  height : Nat
  stones : List (Nat × Nat)
deriving DecidableEq

/-- `StoneBoard::StartNewGame`: clear the played stones back to the
fresh-game position. -/
def StoneBoard.startNewGame (b : StoneBoard) : StoneBoard :=
  { b with stones := [] }

/-- `StoneBoard::SetPosition`: copy the stones of another board into this
one (the dimensions of the two boards agree at every call site). -/
def StoneBoard.setPosition (b other : StoneBoard) : StoneBoard :=
  { b with stones := other.stones }

/-- A `HexBoard`: its working position, the four feature toggles that
`HexEnvironment::NewGame` copies across a resize, an abstract token for
the VC/ICE pruning structures built against this board, and an allocation
identity distinguishing the C++ object produced by each `new HexBoard`.
The board's `VCBuilderParameters()` are not a field here: the
`HexBoard`/`VCBuilder` sources are outside src/, and per the spec the
builder flags belong to the environment's configuration, which a board
replacement does not reset — see `HexEnvironment.buildParam`. -/
structure HexBoard where
  position : StoneBoard
  useVCs : Bool
  useICE : Bool
  useDecompositions : Bool
  backupIceInfo : Bool
  oracleState : Nat
  generation : Nat
deriving DecidableEq

/-- `new HexBoard(width, height, ice, buildParam)`: a fresh board with
empty position and no pruning structures built.  The constructor's
default toggle values live outside src/; the theorems below never depend
on them because `NewGame` overwrites all four. -/
def newHexBoard (width height : Nat) (gen : Nat) : HexBoard :=
  { position := { width := width, height := height, stones := [] }
    useVCs := true
    useICE := true
    useDecompositions := true
    backupIceInfo := true
    oracleState := 0
    generation := gen }

/-- `HexEnvironment`: the `ice` engine, the `buildParam` member, and the
owned board.  Modelled from the spec: the `HexBoard`/`VCBuilder` sources
are not under src/; per the spec the builder-tuning flags are part of the
environment's configuration and "resetting the underlying working copy
does not reset configuration", so the board's `VCBuilderParameters()`
are the environment's `buildParam` member, which each `new HexBoard`
receives by reference.  `nextGeneration` feeds the allocation identity of
the next `new HexBoard`. -/
structure HexEnvironment where
  ice : ICEngineParams
  buildParam : VCBuilderParam
  brd : HexBoard
  nextGeneration : Nat
deriving DecidableEq

/-- `HexEnvironment::NewGame(width, height)`: when the requested
dimensions differ from the board's, save the four toggles, replace the
board by a freshly constructed one and restore the toggles onto it; in
either case finish with `StartNewGame()` on the (possibly new) board's
position. -/
def HexEnvironment.NewGame (env : HexEnvironment) (width height : Nat) :
    HexEnvironment :=
  if env.brd.position.width ≠ width ∨ env.brd.position.height ≠ height then
    let use_vcs := env.brd.useVCs
    let use_ice := env.brd.useICE
    let use_dec := env.brd.useDecompositions
    let backup := env.brd.backupIceInfo
    let b0 := newHexBoard width height env.nextGeneration
    let b1 := { b0 with
                useVCs := use_vcs
                useICE := use_ice
                useDecompositions := use_dec
                backupIceInfo := backup }
    { env with
      brd := { b1 with position := b1.position.startNewGame }
      nextGeneration := env.nextGeneration + 1 }
  else
    { env with brd := { env.brd with position := env.brd.position.startNewGame } }

/-- `HexEnvironment::SyncBoard(board)`: overwrite the working position's
stones from the given snapshot (the C++ returns a reference to the board;
the caller here keeps the whole environment). -/
def HexEnvironment.SyncBoard (env : HexEnvironment) (board : StoneBoard) :
    HexEnvironment :=
  { env with brd := { env.brd with
      position := env.brd.position.setPosition board } }

/-- The parameter list printed by `ParamICE` with no arguments, in the
order of the code. -/
def iceParamList (env : HexEnvironment) : List (String × ParamShow) :=
  [("find_all_pattern_superiors", ParamShow.pb env.ice.findAllPatternSuperiors),
   ("find_all_pattern_killers", ParamShow.pb env.ice.findAllPatternKillers),
   ("find_presimplicial_pairs", ParamShow.pb env.ice.findPresimplicialPairs),
   ("find_three_sided_dead_regions",
     ParamShow.pb env.ice.findThreeSidedDeadRegions),
   ("iterative_dead_regions", ParamShow.pb env.ice.iterativeDeadRegions),
   ("use_capture", ParamShow.pb env.ice.useCapture),
   ("find_reversible", ParamShow.pb env.ice.findReversible),
   ("use_s_reversible_as_reversible",
     ParamShow.pb env.ice.useSReversibleAsReversible)]

/-- `HexEnvironmentCommands::ParamICE`: query or set one of the eight
`ICEngine` toggles. -/
def paramICE (env : HexEnvironment) (args : List HtpValue) :
    HexEnvironment × Except String (List (String × ParamShow)) :=
  match args with
  | [] => (env, Except.ok (iceParamList env))
  | [HtpValue.vs name, v] =>
    if name = "find_all_pattern_superiors" then
      match v with
      | HtpValue.vb b =>
        ({ env with ice := { env.ice with findAllPatternSuperiors := b } },
         Except.ok [])
      | _ => (env, Except.error "argument is not a bool")
    else if name = "find_all_pattern_killers" then
      match v with
      | HtpValue.vb b =>
        ({ env with ice := { env.ice with findAllPatternKillers := b } },
         Except.ok [])
      | _ => (env, Except.error "argument is not a bool")
    else if name = "find_presimplicial_pairs" then
      match v with
      | HtpValue.vb b =>
        ({ env with ice := { env.ice with findPresimplicialPairs := b } },
         Except.ok [])
      | _ => (env, Except.error "argument is not a bool")
    else if name = "find_three_sided_dead_regions" then
      match v with
      | HtpValue.vb b =>
        ({ env with ice := { env.ice with findThreeSidedDeadRegions := b } },
         Except.ok [])
      | _ => (env, Except.error "argument is not a bool")
    else if name = "iterative_dead_regions" then
      match v with
      | HtpValue.vb b =>
        ({ env with ice := { env.ice with iterativeDeadRegions := b } },
         Except.ok [])
      | _ => (env, Except.error "argument is not a bool")
    else if name = "use_capture" then
      match v with
      | HtpValue.vb b =>
        ({ env with ice := { env.ice with useCapture := b } }, Except.ok [])
      | _ => (env, Except.error "argument is not a bool")
    else if name = "find_reversible" then
      match v with
      | HtpValue.vb b =>
        ({ env with ice := { env.ice with findReversible := b } }, Except.ok [])
      | _ => (env, Except.error "argument is not a bool")
    else if name = "use_s_reversible_as_reversible" then
      match v with
      | HtpValue.vb b =>
        ({ env with ice := { env.ice with useSReversibleAsReversible := b } },
         Except.ok [])
      | _ => (env, Except.error "argument is not a bool")
    else (env, Except.error ("Unknown parameter: " ++ name))
  | [_, _] => (env, Except.error "argument is not a string")
  | _ => (env, Except.error "Expected 0 or 2 arguments")

/-- The parameter list printed by `ParamVC` with no arguments, in the
order of the code (reading `brd.VCBuilderParameters()`, i.e. the
environment's `buildParam`). -/
def vcParamList (env : HexEnvironment) : List (String × ParamShow) :=
  [("and_over_edge", ParamShow.pb env.buildParam.and_over_edge),
   ("use_patterns", ParamShow.pb env.buildParam.use_patterns),
   ("use_non_edge_patterns", ParamShow.pb env.buildParam.use_non_edge_patterns),
   ("incremental_builds", ParamShow.pb env.buildParam.incremental_builds),
   ("limit_fulls", ParamShow.pb env.buildParam.limit_fulls),
   ("limit_or", ParamShow.pb env.buildParam.limit_or)]

/-- `HexEnvironmentCommands::ParamVC`: query or set one of the six
builder-tuning flags through `brd.VCBuilderParameters()`. -/
def paramVC (env : HexEnvironment) (args : List HtpValue) :
    HexEnvironment × Except String (List (String × ParamShow)) :=
  match args with
  | [] => (env, Except.ok (vcParamList env))
  | [HtpValue.vs name, v] =>
    if name = "and_over_edge" then
      match v with
      | HtpValue.vb b =>
        ({ env with buildParam := { env.buildParam with and_over_edge := b } },
         Except.ok [])
      | _ => (env, Except.error "argument is not a bool")
    else if name = "use_patterns" then
      match v with
      | HtpValue.vb b =>
        ({ env with buildParam := { env.buildParam with use_patterns := b } },
         Except.ok [])
      | _ => (env, Except.error "argument is not a bool")
    else if name = "use_non_edge_patterns" then
      match v with
      | HtpValue.vb b =>
        ({ env with buildParam :=
             { env.buildParam with use_non_edge_patterns := b } },
         Except.ok [])
      | _ => (env, Except.error "argument is not a bool")
    else if name = "incremental_builds" then
      match v with
      | HtpValue.vb b =>
        ({ env with buildParam :=
             { env.buildParam with incremental_builds := b } },
         Except.ok [])
      | _ => (env, Except.error "argument is not a bool")
    else if name = "limit_fulls" then
      match v with
      | HtpValue.vb b =>
        ({ env with buildParam := { env.buildParam with limit_fulls := b } },
         Except.ok [])
      | _ => (env, Except.error "argument is not a bool")
    else if name = "limit_or" then
      match v with
      | HtpValue.vb b =>
        ({ env with buildParam := { env.buildParam with limit_or := b } },
         Except.ok [])
      | _ => (env, Except.error "argument is not a bool")
    else (env, Except.error ("Unknown parameter: " ++ name))
  | [_, _] => (env, Except.error "argument is not a string")
  | _ => (env, Except.error "Expected 0 or 2 arguments")

/-- The parameter list printed by `ParamBoard` with no arguments, in the
order of the code. -/
def boardParamList (env : HexEnvironment) : List (String × ParamShow) :=
  [("backup_ice_info", ParamShow.pb env.brd.backupIceInfo),
   ("use_decompositions", ParamShow.pb env.brd.useDecompositions),
   ("use_ice", ParamShow.pb env.brd.useICE),
   ("use_vcs", ParamShow.pb env.brd.useVCs)]

/-- `HexEnvironmentCommands::ParamBoard`: query or set one of the four
board toggles. -/
def paramBoard (env : HexEnvironment) (args : List HtpValue) :
    HexEnvironment × Except String (List (String × ParamShow)) :=
  match args with
  | [] => (env, Except.ok (boardParamList env))
  | [HtpValue.vs name, v] =>
    if name = "backup_ice_info" then
      match v with
      | HtpValue.vb b =>
        ({ env with brd := { env.brd with backupIceInfo := b } }, Except.ok [])
      | _ => (env, Except.error "argument is not a bool")
    else if name = "use_decompositions" then
      match v with
      | HtpValue.vb b =>
        ({ env with brd := { env.brd with useDecompositions := b } },
         Except.ok [])
      | _ => (env, Except.error "argument is not a bool")
    else if name = "use_ice" then
      match v with
      | HtpValue.vb b =>
        ({ env with brd := { env.brd with useICE := b } }, Except.ok [])
      | _ => (env, Except.error "argument is not a bool")
    else if name = "use_vcs" then
      match v with
      | HtpValue.vb b =>
        ({ env with brd := { env.brd with useVCs := b } }, Except.ok [])
      | _ => (env, Except.error "argument is not a bool")
    else (env, Except.error ("Unknown parameter: " ++ name))
  | [_, _] => (env, Except.error "argument is not a string")
  | _ => (env, Except.error "Expected 0 or 2 arguments")

/-! ## GenMove (WolveEngine.cpp) -/

/-- The two players of Hex. -/
inductive HexColor
  | black
  | white
deriving DecidableEq

/-- The game record as `GenMove` consumes it: how many moves the history
holds, the current board, and the remaining clock time per color. -/
structure Game where
  movesPlayed : Nat
  board : StoneBoard
  timeRemainingBlack : Rat
  timeRemainingWhite : Rat
deriving DecidableEq

/-- `Game::TimeRemaining(color)`. -/
def Game.timeRemaining (g : Game) : HexColor → Rat
  | HexColor.black => g.timeRemainingBlack
  | HexColor.white => g.timeRemainingWhite

/-- A board position together with the color to play, as handed to the
searches. -/
structure HexState where
  board : StoneBoard
  toPlay : HexColor
deriving DecidableEq

/-- `WolveEngine::TimeForMove`: the time-control policy
(`WolveTimeControl::TimeForMove`, external to src/) when time management
is on, the configured fixed `max_time` otherwise. -/
def timeForMove (timeControl : Game → Rat → Rat) (st : WolveEngineState)
    (game : Game) (c : HexColor) : Rat :=
  if st.player.useTimeManagement then timeControl game (game.timeRemaining c)
  else st.player.maxTime

/-- Modelled from the spec: `SwapCheck::PlaySwap` (SwapCheck.cpp is not
under src/).  Per the spec the check "runs only when the move being
requested is the first move of the game" — the pie-rule opportunity,
which arises when exactly the one opening stone has been placed — and it
then asks the swap heuristic whether the side to move should swap. -/
def playSwap (favour : Game → HexColor → Bool) (game : Game) (c : HexColor) :
    Bool :=
  decide (game.movesPlayed = 1) && favour game c

/-- What one `GenMove` call returned and which searches it invoked. -/
structure GenMoveResult where
  move : HexPoint
  heuristicInvoked : Bool
  solverInvoked : Bool
deriving DecidableEq

/-- `WolveEngine::GenMove(color, useGameClock)`.  `SG_UNUSED(useGameClock)`:
the argument is never read.  The swap check runs first and short-circuits
to `SWAP_PIECES`; otherwise the call either hands the state to
`PlayAndSolve::GenMove` (both searches) or to `WolvePlayer::GenMove`
(heuristic search only), depending on `use_parallel_solver`.  The search
entry points and the swap heuristic are external and passed as
functions. -/
def genMove (favour : Game → HexColor → Bool)
    (timeControl : Game → Rat → Rat)
    (playerSearch : HexState → Rat → HexPoint)
    (playAndSolve : HexState → Rat → HexPoint)
    (st : WolveEngineState) (game : Game) (color : HexColor)
    (useGameClock : Bool) : GenMoveResult :=
  if playSwap favour game color then
    { move := SWAP_PIECES, heuristicInvoked := false, solverInvoked := false }
  else
    let state : HexState := { board := game.board, toPlay := color }
    let maxTime := timeForMove timeControl st game color
    if st.useParallelSolver then
      { move := playAndSolve state maxTime
        heuristicInvoked := true
        solverInvoked := true }
    else
      { move := playerSearch state maxTime
        heuristicInvoked := true
        solverInvoked := false }

/-! ## Helpers for stating the claims -/

/-- The value a no-argument query displays for `name`, read off the
command's output. -/
def shownValue (r : Except String (List (String × ParamShow))) (name : String) :
    Option ParamShow :=
  match r with
  | Except.ok l => l.lookup name
  | Except.error _ => none

/-- Set `name` to `v` through command `c`, then run the no-argument query
and read off the value displayed for `name`. -/
def afterSetQuery {σ : Type}
    (c : σ → List HtpValue → σ × Except String (List (String × ParamShow)))
    (st : σ) (name : String) (v : HtpValue) : Option ParamShow :=
  shownValue (c (c st [HtpValue.vs name, v]).1 []).2 name

/-- Parameter `name` of command `c` round-trips: setting any value of its
type and then querying displays exactly that value. -/
def RoundTrip {σ α : Type}
    (c : σ → List HtpValue → σ × Except String (List (String × ParamShow)))
    (name : String) (enc : α → HtpValue) (shw : α → ParamShow) : Prop :=
  ∀ (st : σ) (v : α), afterSetQuery c st name (enc v) = some (shw v)

/-- The parameter names `WolveEngine::CmdParam` recognises. -/
def wolveParamNames : List String :=
  ["backup_ice_info", "max_time", "ply_width", "max_depth", "min_depth",
   "use_guifx", "search_singleton", "tt_bits", "use_parallel_solver",
   "use_time_management"]

/-- The parameter names `ParamICE` recognises. -/
def iceParamNames : List String :=
  ["find_all_pattern_superiors", "find_all_pattern_killers",
   "find_presimplicial_pairs", "find_three_sided_dead_regions",
   "iterative_dead_regions", "use_capture", "find_reversible",
   "use_s_reversible_as_reversible"]

/-- The parameter names `ParamVC` recognises. -/
def vcParamNames : List String :=
  ["and_over_edge", "use_patterns", "use_non_edge_patterns",
   "incremental_builds", "limit_fulls", "limit_or"]

/-- The parameter names `ParamBoard` recognises. -/
def boardParamNames : List String :=
  ["backup_ice_info", "use_decompositions", "use_ice", "use_vcs"]

/-! ## Concrete states used by the witnesses -/

/-- A concrete `WolveSearch` state. -/
def sampleSearch : WolveSearchState :=
  { backupIceInfo := true, guiFx := false, plyWidth := [20, 20, 20, 20] }

/-- A concrete player state holding a nonempty 1024-entry hash table. -/
def samplePlayer : WolvePlayerState :=
  { search := sampleSearch
    searchSingleton := false
    useTimeManagement := false
    maxDepth := 4
    minDepth := 1
    maxTime := 10
    hashTable := some { maxHash := 1024, entries := [(99, 7)] } }

/-- A concrete engine state. -/
def sampleEngine : WolveEngineState :=
  { player := samplePlayer, useParallelSolver := false }

/-- A concrete 11x11 environment with two stones played and some pruning
state built. -/
def sampleEnv : HexEnvironment :=
  { ice := { findAllPatternSuperiors := true
             findAllPatternKillers := true
             findPresimplicialPairs := true
             findThreeSidedDeadRegions := false
             iterativeDeadRegions := false
             useCapture := true
             findReversible := true
             useSReversibleAsReversible := false }
    buildParam := { and_over_edge := false
                    use_patterns := true
                    use_non_edge_patterns := true
                    incremental_builds := true
                    limit_fulls := true
                    limit_or := true }
    brd := { position := { width := 11, height := 11, stones := [(1, 2), (3, 4)] }
             useVCs := true
             useICE := true
             useDecompositions := false
             backupIceInfo := true
             oracleState := 7
             generation := 0 }
    nextGeneration := 1 }

/-- A game at the pie-rule point: exactly the opening stone placed. -/
def sampleOpeningGame : Game :=
  { movesPlayed := 1
    board := { width := 11, height := 11, stones := [(5, 5)] }
    timeRemainingBlack := 60
    timeRemainingWhite := 60 }

/-- A game in the middle of play. -/
def sampleMidGame : Game :=
  { movesPlayed := 6
    board := { width := 11, height := 11, stones := [(5, 5), (4, 4), (3, 3)] }
    timeRemainingBlack := 40
    timeRemainingWhite := 45 }

/-! ## Theorems -/

/-- C10: `GenMove` never reads its `useGameClock` argument
(`SG_UNUSED(useGameClock)` and no other occurrence), so for every engine
state, game, color and collaborating search functions the result with the
game clock flag on equals the result with it off. -/
theorem c10_useGameClock_no_effect
    (favour : Game → HexColor → Bool) (timeControl : Game → Rat → Rat)
    (playerSearch : HexState → Rat → HexPoint)
    (playAndSolve : HexState → Rat → HexPoint)
    (st : WolveEngineState) (game : Game) (color : HexColor) :
    genMove favour timeControl playerSearch playAndSolve st game color true =
      genMove favour timeControl playerSearch playAndSolve st game color false :=
  rfl

/-- C2: with no table allocated, `wolve-scores` (`CmdScores`) and
`wolve-data` (`CmdData`) fail cleanly with the explicit "No hashtable!"
error, but `wolve-get-pv` (`CmdGetPV`) performs no such check and
dereferences the null table pointer — the claim fails for it on the
code. -/
theorem c2_no_table_behaviour :
    cmdGetPV (fun _ => []) none = CmdOutcome.nullDeref ∧
    cmdScores (fun _ => "") none = CmdOutcome.fail "No hashtable!" ∧
    cmdData (fun _ => none) none = CmdOutcome.fail "No hashtable!" :=
  ⟨rfl, rfl, rfl⟩

/-- C7: setting `tt_bits` to 0 drops the player's hash table, and setting
it to any positive `n` replaces the table by a freshly allocated one with
`2 ^ n` entries and no stored contents (the prior contents are gone). -/
theorem c7_tt_bits (st : WolveEngineState) (n : Nat) (hn : 0 < n) :
    (cmdParam st [HtpValue.vs "tt_bits", HtpValue.vn 0]).1.player.hashTable
      = none ∧
    (cmdParam st [HtpValue.vs "tt_bits", HtpValue.vn n]).1.player.hashTable
      = some { maxHash := 2 ^ n, entries := [] } := by
  refine ⟨rfl, ?_⟩
  simp [cmdParam, Nat.pos_iff_ne_zero.mp hn]

/-- Witness for C7 at a concrete state holding a nonempty table and
bit-size 5. -/
theorem c7_tt_bits_witness :
    (cmdParam sampleEngine
        [HtpValue.vs "tt_bits", HtpValue.vn 0]).1.player.hashTable = none ∧
    (cmdParam sampleEngine
        [HtpValue.vs "tt_bits", HtpValue.vn 5]).1.player.hashTable
      = some { maxHash := 2 ^ 5, entries := [] } :=
  c7_tt_bits sampleEngine 5 (by decide)

/-- C3: resetting the environment to dimensions that differ from the
current ones gives a board of the new dimensions while the four feature
toggles keep their previously set values. -/
theorem c3_newGame_preserves_toggles (env : HexEnvironment) (w h : Nat)
    (hdiff : env.brd.position.width ≠ w ∨ env.brd.position.height ≠ h) :
    (env.NewGame w h).brd.position.width = w ∧
    (env.NewGame w h).brd.position.height = h ∧
    (env.NewGame w h).brd.useVCs = env.brd.useVCs ∧
    (env.NewGame w h).brd.useICE = env.brd.useICE ∧
    (env.NewGame w h).brd.useDecompositions = env.brd.useDecompositions ∧
    (env.NewGame w h).brd.backupIceInfo = env.brd.backupIceInfo := by
  unfold HexEnvironment.NewGame
  rw [if_pos hdiff]
  exact ⟨rfl, rfl, rfl, rfl, rfl, rfl⟩

/-- Witness for C3: the concrete 11x11 environment resized to 5x7 keeps
all four toggles. -/
theorem c3_newGame_preserves_toggles_witness :
    (sampleEnv.NewGame 5 7).brd.position.width = 5 ∧
    (sampleEnv.NewGame 5 7).brd.position.height = 7 ∧
    (sampleEnv.NewGame 5 7).brd.useVCs = sampleEnv.brd.useVCs ∧
    (sampleEnv.NewGame 5 7).brd.useICE = sampleEnv.brd.useICE ∧
    (sampleEnv.NewGame 5 7).brd.useDecompositions
      = sampleEnv.brd.useDecompositions ∧
    (sampleEnv.NewGame 5 7).brd.backupIceInfo = sampleEnv.brd.backupIceInfo :=
  c3_newGame_preserves_toggles sampleEnv 5 7 (Or.inl (by decide))

/-- C5 counterexample: `NewGame` with the current dimensions still calls
`StartNewGame()` on the position, so on a concrete 11x11 environment with
stones played the position is NOT left unchanged, refuting the claim that
the reset is a no-op. -/
theorem c5_counterexample :
    (sampleEnv.NewGame 11 11).brd.position.stones
      ≠ sampleEnv.brd.position.stones := by
  decide

/-- C5 amended: when the requested dimensions equal the current ones the
board object is not replaced — same allocation, same built pruning-oracle
state, same toggles — but the position is restarted by `StartNewGame()`
rather than left unchanged. -/
theorem c5_equal_dims (env : HexEnvironment) (w h : Nat)
    (hw : env.brd.position.width = w) (hh : env.brd.position.height = h) :
    (env.NewGame w h).brd.generation = env.brd.generation ∧
    (env.NewGame w h).brd.oracleState = env.brd.oracleState ∧
    (env.NewGame w h).brd.useVCs = env.brd.useVCs ∧
    (env.NewGame w h).brd.useICE = env.brd.useICE ∧
    (env.NewGame w h).brd.useDecompositions = env.brd.useDecompositions ∧
    (env.NewGame w h).brd.backupIceInfo = env.brd.backupIceInfo ∧
    (env.NewGame w h).brd.position = env.brd.position.startNewGame := by
  unfold HexEnvironment.NewGame
  rw [if_neg (by simp [hw, hh])]
  exact ⟨rfl, rfl, rfl, rfl, rfl, rfl, rfl⟩

/-- Witness for C5 amended at the concrete 11x11 environment. -/
theorem c5_equal_dims_witness :
    (sampleEnv.NewGame 11 11).brd.generation = sampleEnv.brd.generation ∧
    (sampleEnv.NewGame 11 11).brd.oracleState = sampleEnv.brd.oracleState ∧
    (sampleEnv.NewGame 11 11).brd.useVCs = sampleEnv.brd.useVCs ∧
    (sampleEnv.NewGame 11 11).brd.useICE = sampleEnv.brd.useICE ∧
    (sampleEnv.NewGame 11 11).brd.useDecompositions
      = sampleEnv.brd.useDecompositions ∧
    (sampleEnv.NewGame 11 11).brd.backupIceInfo
      = sampleEnv.brd.backupIceInfo ∧
    (sampleEnv.NewGame 11 11).brd.position
      = sampleEnv.brd.position.startNewGame :=
  c5_equal_dims sampleEnv 11 11 rfl rfl

/-- C6: on the opening move, if the swap check decides in favour of
swapping, `GenMove` returns the `SWAP_PIECES` sentinel with neither the
heuristic search nor the solver invoked; on every non-opening move the
swap check reports false and the call proceeds into search. -/
theorem c6_swap_check
    (favour : Game → HexColor → Bool) (timeControl : Game → Rat → Rat)
    (playerSearch : HexState → Rat → HexPoint)
    (playAndSolve : HexState → Rat → HexPoint)
    (st : WolveEngineState) (game : Game) (color : HexColor)
    (useGameClock : Bool) :
    (game.movesPlayed = 1 → favour game color = true →
      genMove favour timeControl playerSearch playAndSolve st game color
          useGameClock =
        { move := SWAP_PIECES, heuristicInvoked := false,
          solverInvoked := false }) ∧
    (game.movesPlayed ≠ 1 →
      playSwap favour game color = false ∧
      (genMove favour timeControl playerSearch playAndSolve st game color
          useGameClock).heuristicInvoked = true) := by
  constructor
  · intro h1 h2
    unfold genMove
    rw [if_pos (by simp [playSwap, h1, h2])]
  · intro h
    have hps : playSwap favour game color = false := by simp [playSwap, h]
    refine ⟨hps, ?_⟩
    unfold genMove
    rw [if_neg (by simp [hps])]
    by_cases hp : st.useParallelSolver <;> simp [hp]

/-- Witness for C6: a heuristic that always favours swapping makes the
opening-move call return the sentinel without search, and a mid-game call
never consults it. -/
theorem c6_swap_check_witness :
    (genMove (fun _ _ => true) (fun _ t => t) (fun _ _ => SWAP_PIECES)
        (fun _ _ => SWAP_PIECES) sampleEngine sampleOpeningGame
        HexColor.black true =
      { move := SWAP_PIECES, heuristicInvoked := false,
        solverInvoked := false }) ∧
    (playSwap (fun _ _ => true) sampleMidGame HexColor.black = false ∧
      (genMove (fun _ _ => true) (fun _ t => t) (fun _ _ => SWAP_PIECES)
          (fun _ _ => SWAP_PIECES) sampleEngine sampleMidGame
          HexColor.black true).heuristicInvoked = true) :=
  ⟨(c6_swap_check (fun _ _ => true) (fun _ t => t) (fun _ _ => SWAP_PIECES)
      (fun _ _ => SWAP_PIECES) sampleEngine sampleOpeningGame
      HexColor.black true).1 rfl rfl,
   (c6_swap_check (fun _ _ => true) (fun _ t => t) (fun _ _ => SWAP_PIECES)
      (fun _ _ => SWAP_PIECES) sampleEngine sampleMidGame
      HexColor.black true).2 (by decide)⟩

/-- The board replacement in `NewGame` never touches the environment's
`buildParam` member. -/
theorem newGame_buildParam (env : HexEnvironment) (w h : Nat) :
    (env.NewGame w h).buildParam = env.buildParam := by
  unfold HexEnvironment.NewGame
  split <;> rfl

/-- C4: a builder-tuning flag set through the VC parameter command keeps
its value across a board resize: setting it to `b`, resizing, and
querying displays `b`. -/
theorem c4_vc_flags_survive_resize (env : HexEnvironment) (w h : Nat)
    (name : String) (b : Bool)
    (hdiff : env.brd.position.width ≠ w ∨ env.brd.position.height ≠ h)
    (hname : name ∈ vcParamNames) :
    shownValue
      (paramVC (((paramVC env [HtpValue.vs name, HtpValue.vb b]).1).NewGame w h)
        []).2 name = some (ParamShow.pb b) := by
  have hbp := newGame_buildParam
    ((paramVC env [HtpValue.vs name, HtpValue.vb b]).1) w h
  fin_cases hname <;>
    simp_all [paramVC, shownValue, vcParamList, List.lookup]

/-- Witness for C4: `and_over_edge` set to true on the concrete 11x11
environment survives a resize to 5x7. -/
theorem c4_vc_flags_survive_resize_witness :
    shownValue (paramVC (((paramVC sampleEnv
        [HtpValue.vs "and_over_edge", HtpValue.vb true]).1).NewGame 5 7) []).2
      "and_over_edge" = some (ParamShow.pb true) :=
  c4_vc_flags_survive_resize sampleEnv 5 7 "and_over_edge" true
    (Or.inl (by decide)) (by decide)

/-- C9: for each of the four parameter commands, an argument count other
than 0 or 2 and a two-argument set with an unknown name both report the
error of the code synchronously and leave the state exactly as it was. -/
theorem c9_usage_errors :
    (∀ (st : WolveEngineState) (args : List HtpValue),
        args.length ≠ 0 → args.length ≠ 2 →
        cmdParam st args = (st, Except.error "Expected 0 or 2 arguments")) ∧
    (∀ (st : WolveEngineState) (name : String) (v : HtpValue),
        name ∉ wolveParamNames →
        cmdParam st [HtpValue.vs name, v] =
          (st, Except.error ("Unknown parameter: " ++ name))) ∧
    (∀ (env : HexEnvironment) (args : List HtpValue),
        args.length ≠ 0 → args.length ≠ 2 →
        paramICE env args = (env, Except.error "Expected 0 or 2 arguments")) ∧
    (∀ (env : HexEnvironment) (name : String) (v : HtpValue),
        name ∉ iceParamNames →
        paramICE env [HtpValue.vs name, v] =
          (env, Except.error ("Unknown parameter: " ++ name))) ∧
    (∀ (env : HexEnvironment) (args : List HtpValue),
        args.length ≠ 0 → args.length ≠ 2 →
        paramVC env args = (env, Except.error "Expected 0 or 2 arguments")) ∧
    (∀ (env : HexEnvironment) (name : String) (v : HtpValue),
        name ∉ vcParamNames →
        paramVC env [HtpValue.vs name, v] =
          (env, Except.error ("Unknown parameter: " ++ name))) ∧
    (∀ (env : HexEnvironment) (args : List HtpValue),
        args.length ≠ 0 → args.length ≠ 2 →
        paramBoard env args = (env, Except.error "Expected 0 or 2 arguments")) ∧
    (∀ (env : HexEnvironment) (name : String) (v : HtpValue),
        name ∉ boardParamNames →
        paramBoard env [HtpValue.vs name, v] =
          (env, Except.error ("Unknown parameter: " ++ name))) := by
  refine ⟨?_, ?_, ?_, ?_, ?_, ?_, ?_, ?_⟩
  · intro st args h0 h2
    rcases args with _ | ⟨a, _ | ⟨b, _ | ⟨c, rest⟩⟩⟩
    · exact absurd rfl h0
    · cases a <;> rfl
    · exact absurd rfl h2
    · cases a <;> rfl
  · intro st name v h
    simp [wolveParamNames] at h
    push_neg at h
    obtain ⟨h1, h2, h3, h4, h5, h6, h7, h8, h9, h10⟩ := h
    simp [cmdParam, h1, h2, h3, h4, h5, h6, h7, h8, h9, h10]
  · intro env args h0 h2
    rcases args with _ | ⟨a, _ | ⟨b, _ | ⟨c, rest⟩⟩⟩
    · exact absurd rfl h0
    · cases a <;> rfl
    · exact absurd rfl h2
    · cases a <;> rfl
  · intro env name v h
    simp [iceParamNames] at h
    push_neg at h
    obtain ⟨h1, h2, h3, h4, h5, h6, h7, h8⟩ := h
    simp [paramICE, h1, h2, h3, h4, h5, h6, h7, h8]
  · intro env args h0 h2
    rcases args with _ | ⟨a, _ | ⟨b, _ | ⟨c, rest⟩⟩⟩
    · exact absurd rfl h0
    · cases a <;> rfl
    · exact absurd rfl h2
    · cases a <;> rfl
  · intro env name v h
    simp [vcParamNames] at h
    push_neg at h
    obtain ⟨h1, h2, h3, h4, h5, h6⟩ := h
    simp [paramVC, h1, h2, h3, h4, h5, h6]
  · intro env args h0 h2
    rcases args with _ | ⟨a, _ | ⟨b, _ | ⟨c, rest⟩⟩⟩
    · exact absurd rfl h0
    · cases a <;> rfl
    · exact absurd rfl h2
    · cases a <;> rfl
  · intro env name v h
    simp [boardParamNames] at h
    push_neg at h
    obtain ⟨h1, h2, h3, h4⟩ := h
    simp [paramBoard, h1, h2, h3, h4]

/-- Witness for C9: a one-argument call and an unknown-name set on the
concrete states, for each of the four commands. -/
theorem c9_usage_errors_witness :
    (cmdParam sampleEngine [HtpValue.vb true] =
      (sampleEngine, Except.error "Expected 0 or 2 arguments")) ∧
    (cmdParam sampleEngine [HtpValue.vs "no_such_param", HtpValue.vb true] =
      (sampleEngine, Except.error "Unknown parameter: no_such_param")) ∧
    (paramICE sampleEnv [HtpValue.vb true] =
      (sampleEnv, Except.error "Expected 0 or 2 arguments")) ∧
    (paramICE sampleEnv [HtpValue.vs "no_such_param", HtpValue.vb true] =
      (sampleEnv, Except.error "Unknown parameter: no_such_param")) ∧
    (paramVC sampleEnv [HtpValue.vb true] =
      (sampleEnv, Except.error "Expected 0 or 2 arguments")) ∧
    (paramVC sampleEnv [HtpValue.vs "no_such_param", HtpValue.vb true] =
      (sampleEnv, Except.error "Unknown parameter: no_such_param")) ∧
    (paramBoard sampleEnv [HtpValue.vb true] =
      (sampleEnv, Except.error "Expected 0 or 2 arguments")) ∧
    (paramBoard sampleEnv [HtpValue.vs "no_such_param", HtpValue.vb true] =
      (sampleEnv, Except.error "Unknown parameter: no_such_param")) :=
  ⟨c9_usage_errors.1 sampleEngine [HtpValue.vb true] (by decide) (by decide),
   c9_usage_errors.2.1 sampleEngine "no_such_param" (HtpValue.vb true)
     (by decide),
   c9_usage_errors.2.2.1 sampleEnv [HtpValue.vb true] (by decide) (by decide),
   c9_usage_errors.2.2.2.1 sampleEnv "no_such_param" (HtpValue.vb true)
     (by decide),
   c9_usage_errors.2.2.2.2.1 sampleEnv [HtpValue.vb true] (by decide)
     (by decide),
   c9_usage_errors.2.2.2.2.2.1 sampleEnv "no_such_param" (HtpValue.vb true)
     (by decide),
   c9_usage_errors.2.2.2.2.2.2.1 sampleEnv [HtpValue.vb true] (by decide)
     (by decide),
   c9_usage_errors.2.2.2.2.2.2.2 sampleEnv "no_such_param" (HtpValue.vb true)
     (by decide)⟩

/-- `log2` of a power of two recovers the exponent, so the query's
`log2(MaxHash())` display shows the bit count that was set. -/
theorem log2_two_pow_eq (n : Nat) : Nat.log2 (2 ^ n) = n := by
  rw [Nat.log2_eq_log_two]
  exact Nat.log_pow (by norm_num) n

/-- C8: for every parameter of the four commands (engine, ICE, VC, and
board namespaces) and every value of its type, a two-argument set
followed by a zero-argument query displays exactly the value that was
set.  `ply_width` is set from its string and displayed as the parsed
sequence; `max_depth`/`min_depth` accept values from 1 up; `tt_bits`
displays `log2` of the capacity of the table it installed. -/
theorem c8_set_then_query :
    RoundTrip cmdParam "backup_ice_info" HtpValue.vb ParamShow.pb ∧
    RoundTrip cmdParam "max_time" HtpValue.vq ParamShow.pq ∧
    (∀ (st : WolveEngineState) (s : String),
      afterSetQuery cmdParam st "ply_width" (HtpValue.vs s) =
        some (ParamShow.pws (ParseDashSeparatedString s.toList))) ∧
    (∀ (st : WolveEngineState) (n : Nat), 1 ≤ n →
      afterSetQuery cmdParam st "max_depth" (HtpValue.vn n) =
        some (ParamShow.pn n)) ∧
    (∀ (st : WolveEngineState) (n : Nat), 1 ≤ n →
      afterSetQuery cmdParam st "min_depth" (HtpValue.vn n) =
        some (ParamShow.pn n)) ∧
    RoundTrip cmdParam "use_guifx" HtpValue.vb ParamShow.pb ∧
    RoundTrip cmdParam "search_singleton" HtpValue.vb ParamShow.pb ∧
    (∀ (st : WolveEngineState) (n : Nat),
      afterSetQuery cmdParam st "tt_bits" (HtpValue.vn n) =
        some (ParamShow.pn n)) ∧
    RoundTrip cmdParam "use_parallel_solver" HtpValue.vb ParamShow.pb ∧
    RoundTrip cmdParam "use_time_management" HtpValue.vb ParamShow.pb ∧
    RoundTrip paramICE "find_all_pattern_superiors" HtpValue.vb ParamShow.pb ∧
    RoundTrip paramICE "find_all_pattern_killers" HtpValue.vb ParamShow.pb ∧
    RoundTrip paramICE "find_presimplicial_pairs" HtpValue.vb ParamShow.pb ∧
    RoundTrip paramICE "find_three_sided_dead_regions"
      HtpValue.vb ParamShow.pb ∧
    RoundTrip paramICE "iterative_dead_regions" HtpValue.vb ParamShow.pb ∧
    RoundTrip paramICE "use_capture" HtpValue.vb ParamShow.pb ∧
    RoundTrip paramICE "find_reversible" HtpValue.vb ParamShow.pb ∧
    RoundTrip paramICE "use_s_reversible_as_reversible"
      HtpValue.vb ParamShow.pb ∧
    RoundTrip paramVC "and_over_edge" HtpValue.vb ParamShow.pb ∧
    RoundTrip paramVC "use_patterns" HtpValue.vb ParamShow.pb ∧
    RoundTrip paramVC "use_non_edge_patterns" HtpValue.vb ParamShow.pb ∧
    RoundTrip paramVC "incremental_builds" HtpValue.vb ParamShow.pb ∧
    RoundTrip paramVC "limit_fulls" HtpValue.vb ParamShow.pb ∧
    RoundTrip paramVC "limit_or" HtpValue.vb ParamShow.pb ∧
    RoundTrip paramBoard "backup_ice_info" HtpValue.vb ParamShow.pb ∧
    RoundTrip paramBoard "use_decompositions" HtpValue.vb ParamShow.pb ∧
    RoundTrip paramBoard "use_ice" HtpValue.vb ParamShow.pb ∧
    RoundTrip paramBoard "use_vcs" HtpValue.vb ParamShow.pb := by
  refine ⟨?_, ?_, ?_, ?_, ?_, ?_, ?_, ?_, ?_, ?_, ?_, ?_, ?_, ?_, ?_, ?_,
    ?_, ?_, ?_, ?_, ?_, ?_, ?_, ?_, ?_, ?_, ?_, ?_⟩
  · intro st v; rfl
  · intro st v; rfl
  · intro st s; rfl
  · intro st n hn
    simp [afterSetQuery, shownValue, cmdParam, wolveParamList, hn,
      List.lookup]
  · intro st n hn
    simp [afterSetQuery, shownValue, cmdParam, wolveParamList, hn,
      List.lookup]
  · intro st v; rfl
  · intro st v; rfl
  · intro st n
    rcases Nat.eq_zero_or_pos n with rfl | hn
    · rfl
    · simp [afterSetQuery, shownValue, cmdParam, wolveParamList,
        shownTTBits, hn.ne', List.lookup, log2_two_pow_eq]
  · intro st v; rfl
  · intro st v; rfl
  · intro st v; rfl
  · intro st v; rfl
  · intro st v; rfl
  · intro st v; rfl
  · intro st v; rfl
  · intro st v; rfl
  · intro st v; rfl
  · intro st v; rfl
  · intro st v; rfl
  · intro st v; rfl
  · intro st v; rfl
  · intro st v; rfl
  · intro st v; rfl
  · intro st v; rfl
  · intro st v; rfl
  · intro st v; rfl
  · intro st v; rfl
  · intro st v; rfl

/-- Witness for C8: concrete set-then-query round trips for one
parameter of each namespace, including the two depth parameters whose
values must be at least 1. -/
theorem c8_set_then_query_witness :
    afterSetQuery cmdParam sampleEngine "use_guifx" (HtpValue.vb true) =
      some (ParamShow.pb true) ∧
    afterSetQuery cmdParam sampleEngine "max_depth" (HtpValue.vn 3) =
      some (ParamShow.pn 3) ∧
    afterSetQuery cmdParam sampleEngine "min_depth" (HtpValue.vn 2) =
      some (ParamShow.pn 2) ∧
    afterSetQuery cmdParam sampleEngine "tt_bits" (HtpValue.vn 6) =
      some (ParamShow.pn 6) ∧
    afterSetQuery paramICE sampleEnv "use_capture" (HtpValue.vb false) =
      some (ParamShow.pb false) ∧
    afterSetQuery paramVC sampleEnv "limit_or" (HtpValue.vb false) =
      some (ParamShow.pb false) ∧
    afterSetQuery paramBoard sampleEnv "use_vcs" (HtpValue.vb false) =
      some (ParamShow.pb false) :=
  ⟨c8_set_then_query.2.2.2.2.2.1 sampleEngine true,
   c8_set_then_query.2.2.2.1 sampleEngine 3 (by decide),
   c8_set_then_query.2.2.2.2.1 sampleEngine 2 (by decide),
   c8_set_then_query.2.2.2.2.2.2.2.1 sampleEngine 6,
   c8_set_then_query.2.2.2.2.2.2.2.2.2.2.2.2.2.2.2.1 sampleEnv false,
   c8_set_then_query.2.2.2.2.2.2.2.2.2.2.2.2.2.2.2.2.2.2.2.2.2.2.2.1
     sampleEnv false,
   c8_set_then_query.2.2.2.2.2.2.2.2.2.2.2.2.2.2.2.2.2.2.2.2.2.2.2.2.2.2.2
     sampleEnv false⟩

/-- A digit character is not stream whitespace. -/
theorem isDigit_not_space {c : Char} (h : c.isDigit = true) :
    cppIsSpace c = false := by
  cases hcs : cppIsSpace c with
  | false => rfl
  | true =>
    exfalso
    simp only [cppIsSpace, Bool.or_eq_true, decide_eq_true_eq] at hcs
    rcases hcs with ((((rfl | rfl) | rfl) | rfl) | rfl) | rfl <;>
      exact absurd h (by decide)

/-- A junk character makes the next extraction fail with nothing read, so
the scan stops and everything after it is ignored. -/
theorem scanTokens_junk {c : Char} (v : List Char) (hj : JunkChar c) :
    scanTokens (c :: v) = [] := by
  obtain ⟨hd, hs, hp, _⟩ := hj
  rw [scanTokens.eq_2, if_neg hs, if_neg hd, if_neg hp]

/-- A junk character right after a digit run ends that field (its value is
pushed) and makes the next extraction fail, ending the loop. -/
theorem extractRun_junk {c : Char} (v : List Char) (acc : Nat)
    (hj : JunkChar c) (hlt : acc < sizeTLimit) :
    extractRun (c :: v) acc = [acc] := by
  obtain ⟨hd, hs, hp, _⟩ := hj
  rw [extractRun.eq_2, if_neg hd, if_neg hs, if_pos hlt, if_neg hp]

/-- Reading a run of digits accumulates their value into the current
field, whatever follows. -/
theorem extractRun_digits (ds : List Char) (rest : List Char) (acc : Nat)
    (h : ∀ c ∈ ds, c.isDigit) :
    extractRun (ds ++ rest) acc =
      extractRun rest (ds.foldl (fun a c => 10 * a + digitVal c) acc) := by
  induction ds generalizing acc with
  | nil => rfl
  | cons d ds ih =>
    have hd : d.isDigit := h d (List.mem_cons_self d ds)
    have hrest : ∀ c ∈ ds, c.isDigit :=
      fun c hc => h c (List.mem_cons_of_mem d hc)
    rw [List.cons_append, extractRun.eq_2, if_pos hd, List.foldl_cons]
    exact ih _ hrest

/-- A well-formed token followed by a space parses to its value and the
scan continues after the space. -/
theorem scanTokens_token (t rest : List Char) (ht : GoodToken t) :
    scanTokens (t ++ ' ' :: rest) = valOfDigits t :: scanTokens rest := by
  obtain ⟨hne, hdig, hlt⟩ := ht
  rcases t with _ | ⟨d, ds⟩
  · exact absurd rfl hne
  · have hd : d.isDigit = true := hdig d (List.mem_cons_self d ds)
    have hds : ∀ c ∈ ds, c.isDigit :=
      fun c hc => hdig c (List.mem_cons_of_mem d hc)
    have hval : ds.foldl (fun a c => 10 * a + digitVal c) (digitVal d) =
        valOfDigits (d :: ds) := by
      simp [valOfDigits]
    rw [List.cons_append, scanTokens.eq_2,
      if_neg (by simp [isDigit_not_space hd]), if_pos hd,
      extractRun_digits ds (' ' :: rest) (digitVal d) hds, hval,
      extractRun.eq_2, if_neg (by decide), if_pos (by decide), if_pos hlt]

/-- A well-formed token followed directly by a junk character parses to
the token's value (the digit run ends the field) and the parse then
stops. -/
theorem scanTokens_token_junk (p : List Char) {c : Char} (v : List Char)
    (hp : GoodToken p) (hc : JunkChar c) :
    scanTokens (p ++ c :: v) = [valOfDigits p] := by
  obtain ⟨hne, hdig, hlt⟩ := hp
  rcases p with _ | ⟨d, ds⟩
  · exact absurd rfl hne
  · have hd : d.isDigit = true := hdig d (List.mem_cons_self d ds)
    have hds : ∀ ch ∈ ds, ch.isDigit :=
      fun ch hch => hdig ch (List.mem_cons_of_mem d hch)
    have hval : ds.foldl (fun a ch => 10 * a + digitVal ch) (digitVal d) =
        valOfDigits (d :: ds) := by
      simp [valOfDigits]
    rw [List.cons_append, scanTokens.eq_2,
      if_neg (by simp [isDigit_not_space hd]), if_pos hd,
      extractRun_digits ds (c :: v) (digitVal d) hds, hval,
      extractRun_junk v (valOfDigits (d :: ds)) hc hlt]

/-- Digit characters pass the dash-to-space pre-pass unchanged. -/
theorem dashToSpace_digits {t : List Char} (h : ∀ c ∈ t, c.isDigit) :
    dashToSpace t = t := by
  induction t with
  | nil => rfl
  | cons a l ih =>
    have ha : a.isDigit := h a (List.mem_cons_self a l)
    have hne : a ≠ '-' := by
      intro he
      rw [he] at ha
      exact absurd ha (by decide)
    have hl : ∀ c ∈ l, c.isDigit := fun c hc => h c (List.mem_cons_of_mem a hc)
    simp only [dashToSpace, List.map_cons, if_neg hne] at ih ⊢
    rw [ih hl]

/-- Scanning well-formed dash-separated tokens followed by a separator
yields the token values and then continues scanning whatever follows the
separator. -/
theorem scanTokens_joinDash (toks : List (List Char)) (rest : List Char) :
    (∀ t ∈ toks, GoodToken t) →
    scanTokens (dashToSpace (joinDash toks) ++ ' ' :: rest) =
      toks.map valOfDigits ++ scanTokens rest := by
  induction toks with
  | nil =>
    intro _
    show scanTokens (' ' :: rest) = [] ++ scanTokens rest
    rw [scanTokens.eq_2, if_pos (by decide), List.nil_append]
  | cons t ts ih =>
    intro htoks
    have hgt : GoodToken t := htoks t (List.mem_cons_self t ts)
    have hts : ∀ x ∈ ts, GoodToken x :=
      fun x hx => htoks x (List.mem_cons_of_mem t hx)
    have htd : dashToSpace t = t := dashToSpace_digits hgt.2.1
    rcases ts with _ | ⟨t2, ts2⟩
    · show scanTokens (dashToSpace t ++ ' ' :: rest) =
        [valOfDigits t] ++ scanTokens rest
      rw [htd, scanTokens_token t rest hgt]
      rfl
    · have hsplit : dashToSpace (joinDash (t :: t2 :: ts2)) =
          t ++ ' ' :: dashToSpace (joinDash (t2 :: ts2)) := by
        show dashToSpace (t ++ '-' :: joinDash (t2 :: ts2)) = _
        simp [dashToSpace] at htd ⊢
        exact htd
      rw [hsplit, List.append_assoc, List.cons_append,
        scanTokens_token t _ hgt, ih hts]
      rfl

/-- C1 counterexample: on "1-x-3" the parse yields [1] — the well-formed
token "3" after the malformed "x" is NOT parsed into the output, because
the failed extraction ends the `while (is)` loop; this refutes the claim
that tokens after a malformed one are still parsed. -/
theorem c1_counterexample :
    ParseDashSeparatedString "1-x-3".toList = [1] ∧
    (3 : Nat) ∉ ParseDashSeparatedString "1-x-3".toList := by
  exact ⟨by decide, by decide⟩

/-- C1 amended: "1-2-3" parses to [1, 2, 3] and "5" to [5].  A malformed
token is neither skipped nor does it abort the parse with nothing:
extraction runs left to right and stops at the first character where an
extraction fails, discarding that character and everything after it.  In
particular a token malformed from its first character is discarded
entirely along with all later tokens; a token that goes bad only after a
leading digit run first has that digit run parsed as a value; and a plus
sign directly followed by digits is not malformed at all — the stream
accepts the sign and parses a further value ("1-5+7-3" gives
[1, 5, 7, 3]). -/
theorem c1_parse_dash_separated :
    ParseDashSeparatedString "1-2-3".toList = [1, 2, 3] ∧
    ParseDashSeparatedString "5".toList = [5] ∧
    (∀ (toks : List (List Char)) (c : Char) (v : List Char),
      (∀ t ∈ toks, GoodToken t) → JunkChar c →
      ParseDashSeparatedString (joinDash toks ++ '-' :: c :: v) =
        toks.map valOfDigits) ∧
    (∀ (toks : List (List Char)) (p : List Char) (c : Char) (v : List Char),
      (∀ t ∈ toks, GoodToken t) → GoodToken p → JunkChar c →
      ParseDashSeparatedString (joinDash toks ++ '-' :: (p ++ c :: v)) =
        toks.map valOfDigits ++ [valOfDigits p]) ∧
    ParseDashSeparatedString "1-9x-3".toList = [1, 9] ∧
    ParseDashSeparatedString "1-5+7-3".toList = [1, 5, 7, 3] := by
  refine ⟨by decide, by decide, ?_, ?_, by decide, by decide⟩
  · intro toks c v htoks hc
    unfold ParseDashSeparatedString
    have hsplit : dashToSpace (joinDash toks ++ '-' :: c :: v) =
        dashToSpace (joinDash toks) ++ ' ' :: c :: dashToSpace v := by
      simp [dashToSpace, hc.2.2.2]
    rw [hsplit, scanTokens_joinDash toks (c :: dashToSpace v) htoks,
      scanTokens_junk (dashToSpace v) hc, List.append_nil]
  · intro toks p c v htoks hp hc
    unfold ParseDashSeparatedString
    have hpd : dashToSpace p = p := dashToSpace_digits hp.2.1
    have hsplit : dashToSpace (joinDash toks ++ '-' :: (p ++ c :: v)) =
        dashToSpace (joinDash toks) ++ ' ' :: (p ++ c :: dashToSpace v) := by
      simp [dashToSpace, hc.2.2.2] at hpd ⊢
      exact hpd
    rw [hsplit, scanTokens_joinDash toks (p ++ c :: dashToSpace v) htoks,
      scanTokens_token_junk p (dashToSpace v) hp hc]

/-- Witness for C1 amended: the tokens "1", "2" followed by the malformed
"x" and the tail "9-9" parse to exactly [1, 2]; and the token "1" followed
by the malformed "9x" and the tail "-3" parse to exactly [1, 9]. -/
theorem c1_parse_dash_separated_witness :
    ParseDashSeparatedString
        (joinDash [['1'], ['2']] ++ '-' :: 'x' :: "9-9".toList) =
      [['1'], ['2']].map valOfDigits ∧
    ParseDashSeparatedString
        (joinDash [['1']] ++ '-' :: (['9'] ++ 'x' :: "-3".toList)) =
      [['1']].map valOfDigits ++ [valOfDigits ['9']] :=
  ⟨c1_parse_dash_separated.2.2.1 [['1'], ['2']] 'x' "9-9".toList
     (by decide) (by decide),
   c1_parse_dash_separated.2.2.2.1 [['1']] ['9'] 'x' "-3".toList
     (by decide) (by decide) (by decide)⟩

end Benzene

